import Mathlib

/-!
Shallow embedding of the kuyruk producer core: `src/kuyruk/connection.py`
(the `LazyConnection` manager over the pika client) and
`src/kuyruk/__init__.py` (the `Kuyruk` dispatcher with its `channel` and
`connection` context managers over the amqp client).  The external client
libraries and the broker are modelled by explicit outcome parameters; Python
exceptions are a single inductive type whose constructors follow the
exception classes the source raises or catches.  Everything lives in the
`KuyrukSpec` namespace so that the `Task` descriptor can keep its source
name.
-/

deriving instance DecidableEq for Except

namespace KuyrukSpec

/-- Python exception classes relevant to the source: `TypeError` raised by
`Kuyruk.__init__`, `AssertionError` from the `assert` in
`LazyConnection.open`, `IOError` (the only class caught by `_is_alive` and by
the channel-close handler), `AttributeError` (caught around `conn.connect()`),
the transport-establishment failure (`ConnectionError` in the spec taxonomy),
the spec-taxonomy name `ConfigurationError` (never raised by the code), and
arbitrary other exceptions `other n`. -/
inductive Err where
  | typeError
  | assertionError
  | ioError
  | attrError
  | connectionError
  | configurationError
  | other (n : Nat)
  deriving DecidableEq, Repr

/-- Model of the `pika.BlockingConnection` object stored in
`LazyConnection._connection`: an identity (which open event created it) and
the library's `is_open` flag.  The flag behaviour is that of the external
library as the spec describes it: set when the connection is established,
cleared by a completed `close()` or when a liveness exchange with the broker
fails. -/
structure PikaConnection where
  id : Nat
  is_open : Bool
  deriving DecidableEq, Repr

/-- A channel returned by `self._connection.channel()` inside
`LazyConnection.channel`: the connection it is multiplexed over and its own
fresh identity. -/
structure PikaChannel where
  connId : Nat
  id : Nat
  deriving DecidableEq, Repr

/-- Events observable at the broker boundary for the `LazyConnection` model. -/
inductive Event where
  | connOpen (id : Nat)
  | connClose (id : Nat)
  | chanOpen (connId : Nat) (chanId : Nat)
  deriving DecidableEq, Repr

/-- Recognizer for connection-open events. -/
def isConnOpen : Event → Bool
  | Event.connOpen _ => true
  | _ => false

/-- `LazyConnection.__init__` state (src/kuyruk/connection.py lines 9-14):
stored credentials and the `_connection` slot, initially `None`. -/
structure LazyConnection where
  host : String
  port : Nat
  user : String
  password : String
  _connection : Option PikaConnection
  deriving DecidableEq, Repr

/-- `LazyConnection.is_open` (connection.py lines 16-18):
`self._connection is not None and self._connection.is_open`.  A total Boolean
function of the state: it performs no library call and cannot raise. -/
def LazyConnection.is_open (m : LazyConnection) : Bool :=
  match m._connection with
  | none => false
  | some c => c.is_open

/-- `LazyConnection.open` (connection.py lines 20-26); `open` is a Lean
keyword, hence the trailing underscore.  `assert not self.is_open` raises
`AssertionError` when already open.  `transportOk` models whether
`pika.BlockingConnection(parameters)` succeeds; when the constructor raises,
the assignment to `self._connection` never runs, so the stored slot is
unchanged.  `freshId` identifies the connection created on success. -/
def LazyConnection.open_ (m : LazyConnection) (transportOk : Bool) (freshId : Nat) :
    LazyConnection × List Event × Except Err Unit :=
  if m.is_open then
    (m, [], Except.error Err.assertionError)
  else if transportOk then
    ({ m with _connection := some { id := freshId, is_open := true } },
      [Event.connOpen freshId], Except.ok ())
  else
    (m, [], Except.error Err.connectionError)

/-- `LazyConnection.channel` (connection.py lines 28-32): `if not
self.is_open: self.open()`, then `return self._connection.channel()`.  `k`
supplies fresh identities and is returned advanced past those consumed.  The
`none` branches model Python attribute access on `None` and are unreachable
on the paths the theorems use. -/
def LazyConnection.channel (m : LazyConnection) (transportOk : Bool) (k : Nat) :
    LazyConnection × Nat × List Event × Except Err PikaChannel :=
  if m.is_open then
    match m._connection with
    | some c =>
      (m, k + 1, [Event.chanOpen c.id k], Except.ok { connId := c.id, id := k })
    | none => (m, k, [], Except.error Err.attrError)
  else
    match m.open_ transportOk k with
    | (m1, ev, Except.error e) => (m1, k, ev, Except.error e)
    | (m1, ev, Except.ok ()) =>
      match m1._connection with
      | some c =>
        (m1, k + 2, ev ++ [Event.chanOpen c.id (k + 1)],
          Except.ok { connId := c.id, id := k + 1 })
      | none => (m1, k + 1, ev, Except.error Err.attrError)

/-- `LazyConnection.close` (connection.py lines 34-39): `if self.is_open`,
call `self._connection.close()` (library outcome supplied by `closeOutcome`;
on success the library marks the connection closed) and log; otherwise only
log `Not connected`.  The not-open branch performs no library call, so
`closeOutcome` is ignored there. -/
def LazyConnection.close (m : LazyConnection) (closeOutcome : Except Err Unit) :
    LazyConnection × List Event × Except Err Unit :=
  if m.is_open then
    match m._connection with
    | some c =>
      match closeOutcome with
      | Except.ok () =>
        ({ m with _connection := some { c with is_open := false } },
          [Event.connClose c.id], Except.ok ())
      | Except.error e => (m, [], Except.error e)
    | none => (m, [], Except.error Err.attrError)
  else
    (m, [], Except.ok ())

/-- Environment action, not a manager method: a failed liveness exchange
makes the external library mark the stored connection not-open, with no call
on the manager (spec, ConnectionManager liveness probe). -/
def LazyConnection.probeFail (m : LazyConnection) : LazyConnection :=
  { m with _connection := m._connection.map fun c => { c with is_open := false } }

/-- A run of `n` back-to-back `channel()` calls on one manager with the
transport accepting connections, collecting the events and the per-call
results; `k` is the fresh-identity supply. -/
def runChannels : LazyConnection → Nat → Nat →
    LazyConnection × List Event × List (Except Err PikaChannel)
  | m, 0, _ => (m, [], [])
  | m, n + 1, k =>
    match m.channel true k with
    | (m1, k1, ev1, r1) =>
      match runChannels m1 n k1 with
      | (m2, ev2, rs) => (m2, ev1 ++ ev2, r1 :: rs)

/-- A run of repeated `close()` calls, one per library outcome in `outs`
(the outcome is ignored on the no-op branch). -/
def runCloses : LazyConnection → List (Except Err Unit) →
    LazyConnection × List Event × List (Except Err Unit)
  | m, [] => (m, [], [])
  | m, o :: os =>
    match m.close o with
    | (m1, ev1, r1) =>
      match runCloses m1 os with
      | (m2, ev2, rs) => (m2, ev1 ++ ev2, r1 :: rs)

/-- The channel-open events emitted by a run of `n` channel creations on
connection `cid` starting at fresh identity `k`. -/
def chanEvents (cid : Nat) : Nat → Nat → List Event
  | _, 0 => []
  | k, n + 1 => Event.chanOpen cid k :: chanEvents cid (k + 1) n

/-- The results of a run of `n` channel creations on connection `cid`
starting at fresh identity `k`. -/
def chanResults (cid : Nat) : Nat → Nat → List (Except Err PikaChannel)
  | _, 0 => []
  | k, n + 1 => Except.ok { connId := cid, id := k } :: chanResults cid (k + 1) n

/-- Broker configuration record (`kuyruk/config.py` is not under src/).
Modelled from the spec: the configuration supplies host, port, user,
password and virtual host as named read-only fields (spec, External
Interfaces), which are exactly the fields `Kuyruk.connection` reads. -/
structure Config where
  RABBIT_HOST : String
  RABBIT_PORT : Nat
  RABBIT_USER : String
  RABBIT_PASSWORD : String
  RABBIT_VIRTUAL_HOST : String
  deriving DecidableEq, Repr

/-- `Config()` with its default values (the usual broker defaults; no claim
depends on the particular strings). -/
def defaultConfig : Config :=
  { RABBIT_HOST := "localhost", RABBIT_PORT := 5672, RABBIT_USER := "guest",
    RABBIT_PASSWORD := "guest", RABBIT_VIRTUAL_HOST := "/" }

/-- The `config` argument of `Kuyruk.__init__`: `None`, a `Config` instance,
or a value of some other type (so `isinstance(config, Config)` is false). -/
inductive ConfigArg where
  | noneArg
  | config (c : Config)
  | wrongType
  deriving DecidableEq, Repr

/-- `Kuyruk` object state (src/kuyruk/__init__.py lines 41-47): the stored
config and the extensions dict.  The object holds no connection or channel
state; each scope builds its own connection. -/
structure Kuyruk where
  config : Config
  extensions : List String
  deriving DecidableEq, Repr

/-- `Kuyruk.__init__` (src/kuyruk/__init__.py lines 41-47): `None` defaults
to `Config()`; a non-`Config` argument raises `TypeError` (a bare builtin,
raised eagerly at construction); otherwise the config is stored. -/
def Kuyruk.init (arg : ConfigArg) : Except Err Kuyruk :=
  match arg with
  | ConfigArg.noneArg => Except.ok { config := defaultConfig, extensions := [] }
  | ConfigArg.config c => Except.ok { config := c, extensions := [] }
  | ConfigArg.wrongType => Except.error Err.typeError

/-- An abstract Python callable, identified only by an id; all that the
decorator logic asks of it is that `callable` is true on it. -/
structure Func where
  id : Nat
  deriving DecidableEq, Repr

/-- The `queue` argument of `Kuyruk.task`: a string (parameterized form; the
Python default is the string `'kuyruk'`) or the decorated function itself
(bare `@task`, where the sole positional argument is the function). -/
inductive QueueArg where
  | str (s : String)
  | func (f : Func)
  deriving DecidableEq, Repr

/-- Python `callable` on a `queue` argument. -/
def callable : QueueArg → Bool
  | QueueArg.str _ => false
  | QueueArg.func _ => true

/-- Task descriptor (`kuyruk/task.py` is not under src/).  Modelled from the
spec: an immutable record of the wrapped callable, the owning dispatcher, the
queue name, the retry count and the optional max run time (spec,
TaskDescriptor), exactly the arguments `Kuyruk.task` passes to `Task(...)`. -/
structure Task where
  f : Func
  kuyruk : Kuyruk
  queue : String
  retry : Nat
  max_run_time : Option Nat
  deriving DecidableEq, Repr

/-- `Kuyruk.task` (src/kuyruk/__init__.py lines 49-79).  The inner closure
computes `queue_ = 'kuyruk' if callable(queue) else queue`; when the `queue`
argument is callable the decorator was applied bare and the finished `Task`
is returned directly (`decorator()(queue)`), otherwise the decorator awaiting
the function is returned (`decorator()`). -/
def Kuyruk.task (self : Kuyruk) (queue : QueueArg) (retry : Nat)
    (max_run_time : Option Nat) : Sum (Func → Task) Task :=
  let inner : Func → Task := fun f =>
    let queue_ : String :=
      match queue with
      | QueueArg.func _ => "kuyruk"
      | QueueArg.str s => s
    { f := f, kuyruk := self, queue := queue_, retry := retry,
      max_run_time := max_run_time }
  match queue with
  | QueueArg.func g => Sum.inr (inner g)
  | QueueArg.str _ => Sum.inl inner

/-- Events observable at the broker boundary for the `Kuyruk` scope model. -/
inductive KEvent where
  | connOpen (id : Nat)
  | connClose (id : Nat)
  | chanOpen (id : Nat)
  | chanClose (id : Nat)
  | publish (queue : String)
  deriving DecidableEq, Repr

/-- Recognizer for connection-open events of the scope model. -/
def isKConnOpen : KEvent → Bool
  | KEvent.connOpen _ => true
  | _ => false

/-- Recognizer for connection-close events of the scope model. -/
def isKConnClose : KEvent → Bool
  | KEvent.connClose _ => true
  | _ => false

/-- `Kuyruk.task` in state-and-trace form: the decorator body only tests
`callable` and constructs a `Task`; it calls nothing that could emit a broker
event and does not touch `self`, so the dispatcher is returned unchanged with
an empty trace. -/
def Kuyruk.taskTraced (self : Kuyruk) (queue : QueueArg) (retry : Nat)
    (max_run_time : Option Nat) :
    Kuyruk × List KEvent × Sum (Func → Task) Task :=
  (self, [], self.task queue retry max_run_time)

/-- Environment outcomes for one `Kuyruk.connection` scope (one amqp
connection): the `conn.connect()` outcome (the amqp version shim), the
`conn.send_heartbeat()` outcome probed by `_is_alive` at scope exit, and the
`conn.close()` outcome if a close is attempted. -/
structure ConnEnv where
  connectOutcome : Except Err Unit
  heartbeatAtExit : Except Err Unit
  closeOutcome : Except Err Unit
  deriving DecidableEq, Repr

/-- `_is_alive` (src/kuyruk/__init__.py lines 120-126): calls
`conn.send_heartbeat()`; returns `False` when it raises `IOError`, `True`
when it succeeds.  Only `IOError` is caught: any other exception from the
heartbeat propagates out of `_is_alive`. -/
def _is_alive (heartbeat : Except Err Unit) : Except Err Bool :=
  match heartbeat with
  | Except.ok () => Except.ok true
  | Except.error Err.ioError => Except.ok false
  | Except.error e => Except.error e

/-- The part of `Kuyruk.connection` from the `Connected to RabbitMQ` log on:
the body runs inside `try`, and in `finally` the connection is closed only
when `_is_alive(conn)` returns `True`.  Python `finally` semantics: an
exception raised in the `finally` block replaces the in-flight outcome.  A
`connClose` event is emitted only by a close that completes. -/
def Kuyruk.connectionRest (env : ConnEnv) (cid : Nat) (bodyEvents : List KEvent)
    (bodyResult : Except Err α) : Except Err α × List KEvent :=
  let evs := KEvent.connOpen cid :: bodyEvents
  match _is_alive env.heartbeatAtExit with
  | Except.error e => (Except.error e, evs)
  | Except.ok false => (bodyResult, evs)
  | Except.ok true =>
    match env.closeOutcome with
    | Except.ok () => (bodyResult, evs ++ [KEvent.connClose cid])
    | Except.error e => (Except.error e, evs)

/-- `Kuyruk.connection` (src/kuyruk/__init__.py lines 97-117) as a function
of the body's outcome: build the amqp connection object (`cid` is its
identity; the constructor itself only builds the object), run
`conn.connect()` swallowing `AttributeError` (the amqp version shim: older
amqp has no `connect` method), then the `try`/`finally` around the body.  A
`connect` failure other than `AttributeError` propagates before the body and
before the `finally` exist. -/
def Kuyruk.connection (env : ConnEnv) (cid : Nat) (bodyEvents : List KEvent)
    (bodyResult : Except Err α) : Except Err α × List KEvent :=
  match env.connectOutcome with
  | Except.ok () => Kuyruk.connectionRest env cid bodyEvents bodyResult
  | Except.error Err.attrError => Kuyruk.connectionRest env cid bodyEvents bodyResult
  | Except.error e => (Except.error e, [])

/-- Environment outcomes for one `Kuyruk.channel` scope: the connection-level
outcomes, the `conn.channel()` outcome, the channel's `is_open` flag when the
`finally` runs, and the `ch.close()` outcome if a close is attempted. -/
structure ChanEnv where
  conn : ConnEnv
  chanOpenOutcome : Except Err Unit
  chanIsOpenAtExit : Bool
  chanCloseOutcome : Except Err Unit
  deriving DecidableEq, Repr

/-- The body that `Kuyruk.channel` (src/kuyruk/__init__.py lines 81-95) runs
inside `Kuyruk.connection`: `ch = conn.channel()` (a failure propagates into
the connection scope), then the user body, then in `finally`: `if
ch.is_open`, call `ch.close()` catching `IOError` and only `IOError` — any
other close exception replaces the in-flight outcome.  The third component is
the channel's open flag after the exit path: false on every path, since the
channel is either already closed at exit or a close was attempted (a close
that raised still tears the channel down).  A `chanClose` event is emitted
only by a close that completes. -/
def Kuyruk.channelBody (env : ChanEnv) (cid : Nat) (bodyEvents : List KEvent)
    (bodyResult : Except Err α) : Except Err α × List KEvent × Bool :=
  match env.chanOpenOutcome with
  | Except.error e => (Except.error e, [], false)
  | Except.ok () =>
    let evs := KEvent.chanOpen cid :: bodyEvents
    if env.chanIsOpenAtExit then
      match env.chanCloseOutcome with
      | Except.ok () => (bodyResult, evs ++ [KEvent.chanClose cid], false)
      | Except.error Err.ioError => (bodyResult, evs, false)
      | Except.error e => (Except.error e, evs, false)
    else
      (bodyResult, evs, false)

/-- `Kuyruk.channel` (src/kuyruk/__init__.py lines 81-95): the channel body
run inside the connection scope.  `bodyEvents`/`bodyResult` describe the user
body run at the `yield`. -/
def Kuyruk.channelScope (env : ChanEnv) (cid : Nat) (bodyEvents : List KEvent)
    (bodyResult : Except Err α) : Except Err α × List KEvent :=
  match Kuyruk.channelBody env cid bodyEvents bodyResult with
  | (r, evs, _) => Kuyruk.connection env.conn cid evs r

/-- Invocation of a task (`Task.__call__`, `kuyruk/task.py`, not under src/).
Modelled from the spec: calling the descriptor does not run the wrapped
function; it publishes one message to the descriptor's queue inside a
`Kuyruk.channel` scope (spec, TaskDescriptor and Dispatcher). -/
def Task.call (t : Task) (env : ChanEnv) (cid : Nat) :
    Except Err Unit × List KEvent :=
  Kuyruk.channelScope env cid [KEvent.publish t.queue] (Except.ok ())

/-- A scope environment in which every external interaction succeeds. -/
def ChanEnv.healthy (env : ChanEnv) : Prop :=
  env.conn.connectOutcome = Except.ok () ∧
  env.conn.heartbeatAtExit = Except.ok () ∧
  env.conn.closeOutcome = Except.ok () ∧
  env.chanOpenOutcome = Except.ok ()  ∧
  env.chanCloseOutcome = Except.ok ()

/-- Two sequential `Kuyruk.channel` scopes on the same dispatcher: their
concatenated event traces.  The second scope takes no input from the first —
the dispatcher object carries no connection state between scopes. -/
def twoScopes (env1 env2 : ChanEnv) (c1 c2 : Nat) (b1 b2 : Except Err Unit) :
    List KEvent :=
  (Kuyruk.channelScope env1 c1 [] b1).2 ++ (Kuyruk.channelScope env2 c2 [] b2).2

/-- On an open manager, `channel()` performs no open: it returns the manager
unchanged and one fresh channel on the stored connection. -/
theorem channel_of_open (m : LazyConnection) (c : PikaConnection)
    (hc : m._connection = some c) (hco : c.is_open = true) (t : Bool) (k : Nat) :
    m.channel t k =
      (m, k + 1, [Event.chanOpen c.id k], Except.ok { connId := c.id, id := k }) := by
  have ho : m.is_open = true := by
    unfold LazyConnection.is_open
    rw [hc]
    exact hco
  unfold LazyConnection.channel
  rw [ho, hc]
  simp

/-- Closed form of a run of `channel()` calls on an already-open manager:
the state never changes and each call yields one fresh channel on the stored
connection. -/
theorem runChannels_of_open (c : PikaConnection) (hco : c.is_open = true) (n : Nat) :
    ∀ (k : Nat) (m : LazyConnection), m._connection = some c →
      runChannels m n k = (m, chanEvents c.id k n, chanResults c.id k n) := by
  induction n with
  | zero =>
    intro k m hm
    simp [runChannels, chanEvents, chanResults]
  | succ n ih =>
    intro k m hm
    simp only [runChannels, channel_of_open m c hm hco true k, ih (k + 1) m hm]
    simp [chanEvents, chanResults]

/-- Closed form of a run of `channel()` calls on a manager with no stored
connection: the first call opens connection `k`, every call yields a fresh
channel on it. -/
theorem runChannels_of_none (m : LazyConnection) (hm : m._connection = none)
    (n k : Nat) :
    runChannels m (n + 1) k =
      ({ m with _connection := some { id := k, is_open := true } },
        Event.connOpen k :: chanEvents k (k + 1) (n + 1),
        chanResults k (k + 1) (n + 1)) := by
  have hno : m.is_open = false := by
    unfold LazyConnection.is_open
    rw [hm]
  have h1 : m.channel true k =
      ({ m with _connection := some { id := k, is_open := true } }, k + 2,
        [Event.connOpen k, Event.chanOpen k (k + 1)],
        Except.ok { connId := k, id := k + 1 }) := by
    unfold LazyConnection.channel LazyConnection.open_
    rw [hno]
    simp
  simp only [runChannels, h1,
    runChannels_of_open { id := k, is_open := true } rfl n (k + 2)
      { m with _connection := some { id := k, is_open := true } } rfl]
  simp [chanEvents, chanResults]

/-- No channel-creation run ever emits a connection-open event. -/
theorem chanEvents_filter_connOpen (cid : Nat) :
    ∀ (n k : Nat), (chanEvents cid k n).filter isConnOpen = [] := by
  intro n
  induction n with
  | zero => intro k; rfl
  | succ n ih =>
    intro k
    rw [chanEvents, List.filter_cons]
    simp [isConnOpen, ih (k + 1)]

/-- Length of a channel-creation result run. -/
theorem chanResults_length (cid : Nat) :
    ∀ (n k : Nat), (chanResults cid k n).length = n := by
  intro n
  induction n with
  | zero => intro k; rfl
  | succ n ih =>
    intro k
    rw [chanResults, List.length_cons, ih (k + 1)]

/-- Every result in a channel-creation run is a successfully created channel
on connection `cid` with identity at least `k`. -/
theorem chanResults_mem (cid : Nat) :
    ∀ (n k : Nat) (r : Except Err PikaChannel), r ∈ chanResults cid k n →
      ∃ i, k ≤ i ∧ r = Except.ok { connId := cid, id := i } := by
  intro n
  induction n with
  | zero =>
    intro k r hr
    simp [chanResults] at hr
  | succ n ih =>
    intro k r hr
    rw [chanResults, List.mem_cons] at hr
    rcases hr with hr | hr
    · exact ⟨k, Nat.le_refl k, hr⟩
    · obtain ⟨i, hki, heq⟩ := ih (k + 1) r hr
      exact ⟨i, Nat.le_of_succ_le hki, heq⟩

/-- The results of a channel-creation run are pairwise distinct. -/
theorem chanResults_nodup (cid : Nat) :
    ∀ (n k : Nat), (chanResults cid k n).Nodup := by
  intro n
  induction n with
  | zero => intro k; exact List.nodup_nil
  | succ n ih =>
    intro k
    rw [chanResults]
    refine List.nodup_cons.mpr ⟨?_, ih (k + 1)⟩
    intro hmem
    obtain ⟨i, hki, heq⟩ := chanResults_mem cid n (k + 1) _ hmem
    have : k = i := by
      have := congrArg (fun r => match r with
        | Except.ok ch => ch.id
        | Except.error _ => 0) heq
      simpa using this
    omega

/-- A manager fresh from `LazyConnection.__init__`: no stored connection. -/
def mUnopened : LazyConnection :=
  { host := "localhost", port := 5672, user := "guest", password := "guest",
    _connection := none }

/-- A manager whose stored connection is dead (flag cleared): not open. -/
def mDead : LazyConnection :=
  { host := "localhost", port := 5672, user := "guest", password := "guest",
    _connection := some { id := 0, is_open := false } }

/-- A manager whose stored connection is live: open. -/
def mLive : LazyConnection :=
  { host := "localhost", port := 5672, user := "guest", password := "guest",
    _connection := some { id := 0, is_open := true } }

/-- C2: on a manager with no prior open connection, a run of `n ≥ 1`
back-to-back successful `channel()` calls opens the connection lazily on the
first call and before any channel (the trace starts with the one
connection-open event), `is_open` is true after the run, the run contains
exactly one connection-open event, and the `n` calls return `n` pairwise
distinct successfully created channels, all multiplexed over the single
opened connection. -/
theorem C2_lazy_single_open_fresh_channels (m : LazyConnection)
    (hm : m._connection = none) (n k : Nat) (hn : 1 ≤ n) :
    (runChannels m n k).1.is_open = true ∧
    (runChannels m n k).2.1.head? = some (Event.connOpen k) ∧
    ((runChannels m n k).2.1.filter isConnOpen).length = 1 ∧
    (runChannels m n k).2.2.length = n ∧
    (runChannels m n k).2.2.Nodup ∧
    ∀ r ∈ (runChannels m n k).2.2, ∃ i, r = Except.ok { connId := k, id := i } := by
  obtain ⟨n', rfl⟩ : ∃ n', n = n' + 1 := ⟨n - 1, by omega⟩
  rw [runChannels_of_none m hm n' k]
  refine ⟨rfl, rfl, ?_, ?_, ?_, ?_⟩
  · rw [List.filter_cons]
    simp [isConnOpen, chanEvents_filter_connOpen]
  · exact chanResults_length k (n' + 1) (k + 1)
  · exact chanResults_nodup k (n' + 1) (k + 1)
  · intro r hr
    obtain ⟨i, _, heq⟩ := chanResults_mem k (n' + 1) (k + 1) r hr
    exact ⟨i, heq⟩

/-- Witness for C2: two calls on a concrete unopened manager. -/
theorem C2_lazy_single_open_fresh_channels_witness :
    (runChannels mUnopened 2 0).1.is_open = true ∧
    (runChannels mUnopened 2 0).2.1.head? = some (Event.connOpen 0) ∧
    ((runChannels mUnopened 2 0).2.1.filter isConnOpen).length = 1 ∧
    (runChannels mUnopened 2 0).2.2.length = 2 ∧
    (runChannels mUnopened 2 0).2.2.Nodup ∧
    ∀ r ∈ (runChannels mUnopened 2 0).2.2,
      ∃ i, r = Except.ok { connId := 0, id := i } :=
  C2_lazy_single_open_fresh_channels mUnopened rfl 2 0 (by omega)

/-- C3: `is_open` is a total Boolean function of the state, so it performs no
call that could raise; it is true only if a stored connection object exists
whose liveness flag is still set; and immediately after a liveness-probe
failure (the environment clearing the flag) it is false, with no intervening
`close()` call on the manager. -/
theorem C3_is_open_only_if_live :
    (∀ m : LazyConnection, m.is_open = true →
      ∃ c, m._connection = some c ∧ c.is_open = true) ∧
    (∀ m : LazyConnection, m.probeFail.is_open = false) := by
  constructor
  · intro m h
    unfold LazyConnection.is_open at h
    cases hc : m._connection with
    | none => rw [hc] at h; cases h
    | some c => rw [hc] at h; exact ⟨c, rfl, h⟩
  · intro m
    unfold LazyConnection.probeFail LazyConnection.is_open
    cases m._connection <;> simp

/-- Witness for C3 at a concrete open manager. -/
theorem C3_is_open_only_if_live_witness :
    ∃ c, mLive._connection = some c ∧ c.is_open = true :=
  C3_is_open_only_if_live.1 mLive rfl

/-- C4: `close()` on a manager that is not open (unopened, or holding only a
dead or already-closed connection) is a silent no-op — state unchanged, no
event, no error — whatever the library outcome would be, and a run of any
number of repeated closes on such a manager raises nothing and changes
nothing; while `close()` on an open manager (library close completing)
closes the stored connection, after which the manager is no longer open. -/
theorem C4_close_noop_idempotent :
    (∀ (m : LazyConnection) (o : Except Err Unit), m.is_open = false →
      m.close o = (m, [], Except.ok ())) ∧
    (∀ (m : LazyConnection) (outs : List (Except Err Unit)), m.is_open = false →
      runCloses m outs = (m, [], outs.map fun _ => Except.ok ())) ∧
    (∀ (m : LazyConnection) (c : PikaConnection), m._connection = some c →
      c.is_open = true →
      (m.close (Except.ok ())).1.is_open = false ∧
      (m.close (Except.ok ())).2.1 = [Event.connClose c.id] ∧
      (m.close (Except.ok ())).2.2 = Except.ok ()) := by
  have h1 : ∀ (m : LazyConnection) (o : Except Err Unit), m.is_open = false →
      m.close o = (m, [], Except.ok ()) := by
    intro m o h
    unfold LazyConnection.close
    rw [h]
    simp
  refine ⟨h1, ?_, ?_⟩
  · intro m outs h
    induction outs with
    | nil => rfl
    | cons o os ih =>
      simp only [runCloses, h1 m o h, ih]
      simp
  · intro m c hc hco
    have ho : m.is_open = true := by
      unfold LazyConnection.is_open
      rw [hc]
      exact hco
    unfold LazyConnection.close
    rw [ho, hc]
    simp [LazyConnection.is_open]

/-- Witness for C4: closes on concrete dead and live managers. -/
theorem C4_close_noop_idempotent_witness :
    mDead.close (Except.error Err.ioError) = (mDead, [], Except.ok ()) ∧
    runCloses mDead [Except.ok (), Except.ok ()] =
      (mDead, [], [Except.ok (), Except.ok ()]) ∧
    ((mLive.close (Except.ok ())).1.is_open = false ∧
      (mLive.close (Except.ok ())).2.1 = [Event.connClose 0] ∧
      (mLive.close (Except.ok ())).2.2 = Except.ok ()) :=
  ⟨C4_close_noop_idempotent.1 mDead (Except.error Err.ioError) rfl,
    C4_close_noop_idempotent.2.1 mDead [Except.ok (), Except.ok ()] rfl,
    C4_close_noop_idempotent.2.2 mLive { id := 0, is_open := true } rfl rfl⟩

/-- C5 counterexample: a manager whose stored connection is a dead prior one
is not open, so `channel()` retries the open; with the transport rejecting,
`channel()` raises `ConnectionError` — yet the stored connection slot is the
stale prior connection, present rather than absent. -/
theorem C5_counterexample :
    mDead.is_open = false ∧
    (mDead.channel false 1).2.2.2 = Except.error Err.connectionError ∧
    (mDead.channel false 1).1._connection ≠ none := by
  refine ⟨rfl, rfl, ?_⟩
  decide

/-- C5 amended: whenever the manager is not open and the transport cannot be
established, `channel()` fails with `ConnectionError`, emits no broker event,
and stores no new or half-initialized connection: the stored-connection slot
is exactly what it was before the call — in particular it remains absent on a
manager that never opened — and `is_open` remains false. -/
theorem C5_channel_failure_no_partial_state (m : LazyConnection)
    (h : m.is_open = false) (k : Nat) :
    (m.channel false k).2.2.2 = Except.error Err.connectionError ∧
    (m.channel false k).1._connection = m._connection ∧
    (m.channel false k).1.is_open = false ∧
    (m.channel false k).2.2.1 = [] := by
  unfold LazyConnection.channel LazyConnection.open_
  rw [h]
  simp [h]

/-- Witness for C5 (amended) at a concrete never-opened manager. -/
theorem C5_channel_failure_no_partial_state_witness :
    (mUnopened.channel false 0).2.2.2 = Except.error Err.connectionError ∧
    (mUnopened.channel false 0).1._connection = mUnopened._connection ∧
    (mUnopened.channel false 0).1.is_open = false ∧
    (mUnopened.channel false 0).2.2.1 = [] :=
  C5_channel_failure_no_partial_state mUnopened rfl 0

/-- Closed form of a `Kuyruk.channel` scope in which every external
interaction succeeds: the scope opens its connection, opens a channel, runs
the body, closes the channel when it is still open at exit, closes the
connection, and passes the body's outcome through. -/
theorem channelScope_healthy (env : ChanEnv) (h : env.healthy) (c : Nat)
    (bs : List KEvent) (b : Except Err Unit) :
    Kuyruk.channelScope env c bs b =
      (b, KEvent.connOpen c :: KEvent.chanOpen c ::
        (bs ++ (if env.chanIsOpenAtExit
          then [KEvent.chanClose c, KEvent.connClose c]
          else [KEvent.connClose c]))) := by
  obtain ⟨h1, h2, h3, h4, h5⟩ := h
  cases hx : env.chanIsOpenAtExit <;>
    simp [Kuyruk.channelScope, Kuyruk.channelBody, Kuyruk.connection,
      Kuyruk.connectionRest, _is_alive, h1, h2, h3, h4, h5, hx]

/-- A connection-scope environment in which everything succeeds. -/
def connOK : ConnEnv :=
  { connectOutcome := Except.ok (),
    heartbeatAtExit := Except.ok (),
    closeOutcome := Except.ok () }

/-- A channel-scope environment where the body's channel is open at exit and
`ch.close()` raises a non-IO error. -/
def envCloseBoom : ChanEnv :=
  { conn := connOK,
    chanOpenOutcome := Except.ok (),
    chanIsOpenAtExit := true,
    chanCloseOutcome := Except.error (Err.other 0) }

/-- A channel-scope environment where `ch.close()` raises `IOError`. -/
def envCloseIO : ChanEnv :=
  { conn := connOK,
    chanOpenOutcome := Except.ok (),
    chanIsOpenAtExit := true,
    chanCloseOutcome := Except.error Err.ioError }

/-- A channel-scope environment in which everything succeeds. -/
def envHealthy : ChanEnv :=
  { conn := connOK,
    chanOpenOutcome := Except.ok (),
    chanIsOpenAtExit := true,
    chanCloseOutcome := Except.ok () }

/-- The all-successes environment satisfies `healthy`. -/
theorem envHealthy_healthy : envHealthy.healthy := ⟨rfl, rfl, rfl, rfl, rfl⟩

/-- C1 counterexample: the body raises `other 1` while the channel is still
open at exit, and `ch.close()` raises `other 0`, which is not an `IOError`;
the handler catches only `IOError`, so the close error — not the body's
original error — is what propagates out of the scope. -/
theorem C1_counterexample :
    (Kuyruk.channelScope envCloseBoom 0 []
      (Except.error (Err.other 1) : Except Err Unit)).1 =
      Except.error (Err.other 0) ∧
    Err.other 0 ≠ Err.other 1 :=
  ⟨rfl, by decide⟩

/-- C1 amended: when the body inside a `Kuyruk.channel` scope raises any
error, the channel is not open after the exit path (the `finally` closes it
when it is still open), and the body's original error is the one that
propagates — provided any failure of the channel close is an `IOError` (the
only class the handler catches) and the connection-level exit path (the
heartbeat probed by `_is_alive`, and `conn.close()` when the connection is
alive) raises nothing it does not catch. -/
theorem C1_body_error_preserved (env : ChanEnv) (cid : Nat) (bs : List KEvent)
    (e : Err)
    (hconnect : env.conn.connectOutcome = Except.ok ()
      ∨ env.conn.connectOutcome = Except.error Err.attrError)
    (hchan : env.chanOpenOutcome = Except.ok ())
    (hclose : env.chanCloseOutcome = Except.ok ()
      ∨ env.chanCloseOutcome = Except.error Err.ioError)
    (hhb : env.conn.heartbeatAtExit = Except.ok ()
      ∨ env.conn.heartbeatAtExit = Except.error Err.ioError)
    (hcclose : env.conn.closeOutcome = Except.ok ()) :
    (Kuyruk.channelScope env cid bs (Except.error e : Except Err Unit)).1 =
      Except.error e ∧
    (Kuyruk.channelBody env cid bs (Except.error e : Except Err Unit)).2.2 =
      false := by
  rcases hconnect with h1 | h1 <;> rcases hclose with h2 | h2 <;>
    rcases hhb with h3 | h3 <;> cases hx : env.chanIsOpenAtExit <;>
    simp [Kuyruk.channelScope, Kuyruk.channelBody, Kuyruk.connection,
      Kuyruk.connectionRest, _is_alive, h1, h2, h3, hchan, hcclose, hx]

/-- Witness for C1 (amended): concrete scope whose channel close raises
`IOError`; the body's error `other 7` still propagates. -/
theorem C1_body_error_preserved_witness :
    (Kuyruk.channelScope envCloseIO 0 []
      (Except.error (Err.other 7) : Except Err Unit)).1 =
      Except.error (Err.other 7) ∧
    (Kuyruk.channelBody envCloseIO 0 []
      (Except.error (Err.other 7) : Except Err Unit)).2.2 = false :=
  C1_body_error_preserved envCloseIO 0 [] (Err.other 7)
    (Or.inl rfl) rfl (Or.inr rfl) (Or.inl rfl) rfl

/-- C6: at `Kuyruk.connection` scope exit, a completed connection close
happens only when the liveness probe (`_is_alive` on the exit heartbeat)
succeeds; and when the probe reports the connection already dead — the
heartbeat raising `IOError` — the close is skipped and the scope exits with
exactly the body's own outcome and no close event: nothing is raised on
account of the dead connection. -/
theorem C6_close_only_if_alive (env : ConnEnv) (cid : Nat) (bs : List KEvent)
    (r : Except Err Unit)
    (hconnect : env.connectOutcome = Except.ok ()
      ∨ env.connectOutcome = Except.error Err.attrError)
    (hfresh : KEvent.connClose cid ∉ bs) :
    (KEvent.connClose cid ∈ (Kuyruk.connection env cid bs r).2 →
      env.heartbeatAtExit = Except.ok ()) ∧
    (env.heartbeatAtExit = Except.error Err.ioError →
      Kuyruk.connection env cid bs r = (r, KEvent.connOpen cid :: bs)) := by
  have hred : Kuyruk.connection env cid bs r =
      Kuyruk.connectionRest env cid bs r := by
    unfold Kuyruk.connection
    rcases hconnect with h | h <;> rw [h]
  constructor
  · intro hmem
    rw [hred] at hmem
    unfold Kuyruk.connectionRest at hmem
    cases hhb : env.heartbeatAtExit with
    | ok u => cases u; rfl
    | error e =>
      rw [hhb] at hmem
      exfalso
      cases e <;> simp [_is_alive] at hmem <;> exact hfresh hmem
  · intro hdead
    rw [hred]
    unfold Kuyruk.connectionRest
    rw [hdead]
    simp [_is_alive]

/-- A connection-scope environment whose connection is dead at exit: the
heartbeat raises `IOError`. -/
def connEnvDead : ConnEnv :=
  { connectOutcome := Except.ok (),
    heartbeatAtExit := Except.error Err.ioError,
    closeOutcome := Except.ok () }

/-- Witness for C6: a concrete scope over a connection dead at exit — close
is skipped and the body's outcome survives unchanged. -/
theorem C6_close_only_if_alive_witness :
    Kuyruk.connection connEnvDead 3 [] (Except.ok () : Except Err Unit) =
      (Except.ok (), [KEvent.connOpen 3]) :=
  (C6_close_only_if_alive connEnvDead 3 [] (Except.ok ())
    (Or.inl rfl) (List.not_mem_nil _)).2 rfl

/-- A concrete dispatcher built over the default config. -/
def kuyruk0 : Kuyruk := { config := defaultConfig, extensions := [] }

/-- C7 counterexample: applying the decorator bare yields a task whose queue
name is the code's fixed default, the string `"kuyruk"` — not `"default"` as
claimed. -/
theorem C7_counterexample :
    kuyruk0.task (QueueArg.func { id := 0 }) 0 none =
      Sum.inr
        { f := { id := 0 }, kuyruk := kuyruk0, queue := "kuyruk",
          retry := 0, max_run_time := none } ∧
    "kuyruk" ≠ "default" :=
  ⟨rfl, by decide⟩

/-- C7 amended: both decorator forms — bare (the sole argument is the
function itself, disambiguated by `callable`) and parameterized — produce a
task descriptor whose queue-name attribute is always a present string; when
the queue is omitted (the parameter default is the string `'kuyruk'`) or the
decorator is applied bare, the queue name is the fixed default `"kuyruk"`,
and an explicitly given queue string is used as given. -/
theorem C7_queue_defaulting (k : Kuyruk) (f : Func) (retry : Nat)
    (mrt : Option Nat) (s : String) :
    k.task (QueueArg.func f) retry mrt =
      Sum.inr
        { f := f, kuyruk := k, queue := "kuyruk", retry := retry,
          max_run_time := mrt } ∧
    (∃ d, k.task (QueueArg.str "kuyruk") retry mrt = Sum.inl d ∧
      d f =
        { f := f, kuyruk := k, queue := "kuyruk", retry := retry,
          max_run_time := mrt }) ∧
    (∃ d, k.task (QueueArg.str s) retry mrt = Sum.inl d ∧
      (d f).queue = s ∧ (d f).f = f ∧ (d f).retry = retry ∧
      (d f).max_run_time = mrt) :=
  ⟨rfl, ⟨_, rfl, rfl⟩, ⟨_, rfl, rfl, rfl, rfl, rfl⟩⟩

/-- C8 counterexample: a wrong-type config makes `Kuyruk.__init__` raise the
bare builtin `TypeError`, which is not the spec taxonomy's
`ConfigurationError`. -/
theorem C8_counterexample :
    Kuyruk.init ConfigArg.wrongType = Except.error Err.typeError ∧
    Err.typeError ≠ Err.configurationError :=
  ⟨rfl, by decide⟩

/-- C8 amended: constructing the dispatcher with a configuration value of the
wrong type raises `TypeError` eagerly at construction time (the `isinstance`
check in `__init__`), not deferred to first use; construction with a valid
`Config` — or with `None`, which takes the default config — raises
nothing. -/
theorem C8_eager_type_check (c : Config) :
    Kuyruk.init ConfigArg.wrongType = Except.error Err.typeError ∧
    Kuyruk.init (ConfigArg.config c) =
      Except.ok { config := c, extensions := [] } ∧
    Kuyruk.init ConfigArg.noneArg =
      Except.ok { config := defaultConfig, extensions := [] } :=
  ⟨rfl, rfl, rfl⟩

/-- A concrete task descriptor, as the decorator would build it. -/
def task0 : Task :=
  { f := { id := 0 }, kuyruk := kuyruk0, queue := "math", retry := 3,
    max_run_time := none }

/-- C9: registering a function via the task decorator is pure in the
embedding: for every dispatcher and every decorator configuration it leaves
the dispatcher exactly as it was and emits no broker event — the decorator
body only tests `callable` and constructs the descriptor record — whereas
invoking a produced descriptor does touch the network: its trace opens a
connection and publishes to the descriptor's queue. -/
theorem C9_registration_no_network (k : Kuyruk) (q : QueueArg) (retry : Nat)
    (mrt : Option Nat) (t : Task) (env : ChanEnv) (cid : Nat)
    (henv : env.healthy) :
    (k.taskTraced q retry mrt).1 = k ∧
    (k.taskTraced q retry mrt).2.1 = [] ∧
    KEvent.connOpen cid ∈ (t.call env cid).2 ∧
    KEvent.publish t.queue ∈ (t.call env cid).2 := by
  refine ⟨rfl, rfl, ?_, ?_⟩
  · unfold Task.call
    rw [channelScope_healthy env henv cid [KEvent.publish t.queue]
      (Except.ok ())]
    simp
  · unfold Task.call
    rw [channelScope_healthy env henv cid [KEvent.publish t.queue]
      (Except.ok ())]
    simp

/-- Witness for C9 at a concrete dispatcher, decorator call and task. -/
theorem C9_registration_no_network_witness :
    (kuyruk0.taskTraced (QueueArg.str "math") 3 none).1 = kuyruk0 ∧
    (kuyruk0.taskTraced (QueueArg.str "math") 3 none).2.1 = [] ∧
    KEvent.connOpen 5 ∈ (task0.call envHealthy 5).2 ∧
    KEvent.publish task0.queue ∈ (task0.call envHealthy 5).2 :=
  C9_registration_no_network kuyruk0 (QueueArg.str "math") 3 none task0
    envHealthy 5 envHealthy_healthy

/-- C10: two sequential `Kuyruk.channel` scopes on one dispatcher, with
distinct fresh connections `c1 ≠ c2` and healthy environments, each establish
a connection of their own and tear it down at scope exit: the combined trace
contains exactly the two connection-open events and exactly the two matching
connection-close events, one pair per scope, and the two scopes' connections
are distinct — no connection state on the dispatcher carries over from the
first scope to the second. -/
theorem C10_fresh_connection_per_scope (env1 env2 : ChanEnv) (c1 c2 : Nat)
    (b1 b2 : Except Err Unit) (h1 : env1.healthy) (h2 : env2.healthy)
    (hne : c1 ≠ c2) :
    (twoScopes env1 env2 c1 c2 b1 b2).filter isKConnOpen =
      [KEvent.connOpen c1, KEvent.connOpen c2] ∧
    (twoScopes env1 env2 c1 c2 b1 b2).filter isKConnClose =
      [KEvent.connClose c1, KEvent.connClose c2] ∧
    KEvent.connOpen c1 ≠ KEvent.connOpen c2 := by
  unfold twoScopes
  rw [channelScope_healthy env1 h1 c1 [] b1, channelScope_healthy env2 h2 c2 [] b2]
  cases hA : env1.chanIsOpenAtExit <;> cases hB : env2.chanIsOpenAtExit <;>
    simp [isKConnOpen, isKConnClose, hne]

/-- Witness for C10: two concrete healthy scopes over connections 1 and 2. -/
theorem C10_fresh_connection_per_scope_witness :
    (twoScopes envHealthy envHealthy 1 2 (Except.ok ()) (Except.ok ())).filter
      isKConnOpen = [KEvent.connOpen 1, KEvent.connOpen 2] ∧
    (twoScopes envHealthy envHealthy 1 2 (Except.ok ()) (Except.ok ())).filter
      isKConnClose = [KEvent.connClose 1, KEvent.connClose 2] ∧
    KEvent.connOpen 1 ≠ KEvent.connOpen 2 :=
  C10_fresh_connection_per_scope envHealthy envHealthy 1 2
    (Except.ok ()) (Except.ok ()) envHealthy_healthy envHealthy_healthy
    (by decide)

end KuyrukSpec
